import Mathlib

/-!
Verification of the ai_risk_engine service against its specification.

The development shallowly embeds the relevant parts of the Python code:

* `app/application/event_service.py` — the ingestion transaction
  (`EventService.create_event`), together with the Redis-backed event
  repository (`app/infrastructure/cache/event_repository_redis.py`),
  modelled as a pure state-passing function over a `World`;
* `app/workflows/langgraph/` — the risk workflow state, the five nodes and
  the resume logic of `run_all_nodes`;
* `app/scalability/circuit_breaker.py` — the three-state circuit breaker;
* `app/scalability/autoscaling_policy.py` — the autoscaling decision;
* `app/security/encryption.py` — the Fernet-based encryption service,
  modelled symbolically (ideal KDF and authenticated cipher);
* `app/governance/model_registry.py` — version resolution inputs.

External library behaviour (pydantic JSON round-trips, broker faults) is
injected through an `Env` record; theorems state their contracts as
explicit hypotheses and witnesses instantiate them with concrete values.
Machine floats in the source only ever hold exactly representable values
at the compared boundaries, so numeric fields are modelled with `Rat`.
-/

namespace AiRiskEngine

/-- An association-list model of the shared Redis key space
(`RedisClient.set_cache` / `get_cache` with string keys and values). -/
def kvGet : List (String × String) → String → Option String
  | [], _ => none
  | (k, v) :: rest, key => if k = key then some v else kvGet rest key

/-- Setting a key: overwrite in place if present, else append. -/
def kvSet : List (String × String) → String → String → List (String × String)
  | [], key, v => [(key, v)]
  | (k, w) :: rest, key, v =>
      if k = key then (key, v) :: rest else (k, w) :: kvSet rest key v

/-- `_idempotency_key` from `app/application/event_service.py`:
`f"idempotency:{tenant_id}:{idempotency_key}"`. -/
def idempotencyCacheKey (tenant_id idempotency_key : String) : String :=
  "idempotency:" ++ tenant_id ++ ":" ++ idempotency_key

/-- The event-store key used by `RedisEventRepository.save`:
`f"event:{tenant_id}:{event_id}"`. -/
def eventStoreKey (tenant_id event_id : String) : String :=
  "event:" ++ tenant_id ++ ":" ++ event_id

/-- `EventStatus` from `app/domain/models/event.py`. -/
inductive EventStatus where
  | received
  | created
  | validated
  | processing
  | approved
  | rejected
  | failed
  deriving DecidableEq, Repr

/-- The `.value` of the Python `str`-enum `EventStatus`. -/
def EventStatus.value : EventStatus → String
  | .received => "received"
  | .created => "created"
  | .validated => "validated"
  | .processing => "processing"
  | .approved => "approved"
  | .rejected => "rejected"
  | .failed => "failed"

/-- JSON-like values for the `metadata: dict[str, Any]` fields. -/
inductive JsonVal where
  | str (s : String)
  | num (q : Rat)
  | boolean (b : Bool)
  | null
  deriving DecidableEq, Repr

/-- Metadata dictionaries, modelled as association lists. -/
abbrev Metadata := List (String × JsonVal)

/-- Dictionary lookup on metadata. -/
def metaGet : Metadata → String → Option JsonVal
  | [], _ => none
  | (k, v) :: rest, key => if k = key then some v else metaGet rest key

/-- Dictionary assignment on metadata (`metadata["version"] = ...`). -/
def metaSet : Metadata → String → JsonVal → Metadata
  | [], key, v => [(key, v)]
  | (k, w) :: rest, key, v =>
      if k = key then (key, v) :: rest else (k, w) :: metaSet rest key v

/-- Which concrete domain event class an event is (`RiskEvent`,
`ComplianceEvent`, or a plain `BaseEvent`). The API routers only ever
construct the first two (see `_request_to_risk_event` and
`_request_to_compliance_event` in `app/api/routers/events.py`). -/
inductive EventVariant where
  | risk (risk_score : Option Rat) (category : Option String)
  | compliance (regulation_ref : Option String) (compliance_type : Option String)
  | plainBase
  deriving DecidableEq, Repr

/-- `BaseEvent` from `app/domain/models/event.py`; `created_at` timestamps
are opaque strings here. -/
structure BaseEvent where
  event_id : String
  tenant_id : String
  status : EventStatus
  created_at : String
  metadata : Option Metadata := none
  variant : EventVariant := .plainBase
  deriving DecidableEq, Repr

/-- `_routing_key` from `app/application/event_service.py`. -/
def routingKey (e : BaseEvent) : String :=
  match e.variant with
  | .risk _ _ => "risk.created"
  | .compliance _ _ => "compliance.created"
  | .plainBase => "event.created"

/-- `_event_type_name` from `app/application/event_service.py`
(`type(event).__name__`). -/
def eventTypeName (e : BaseEvent) : String :=
  match e.variant with
  | .risk _ _ => "RiskEvent"
  | .compliance _ _ => "ComplianceEvent"
  | .plainBase => "BaseEvent"

/-- `PersistedEvent` from `app/application/event_repository.py`. -/
structure PersistedEvent where
  event_id : String
  tenant_id : String
  correlation_id : String
  status : EventStatus
  created_at : String
  metadata : Option Metadata := none
  version : String := "1.0"
  deriving DecidableEq, Repr

/-- `EventResponse` (the subset of fields set by `_persisted_to_response`). -/
structure EventResponse where
  event_id : String
  tenant_id : String
  status : EventStatus
  created_at : String
  metadata : Option Metadata
  version : String
  deriving DecidableEq, Repr

/-- `_persisted_to_response` from `app/application/event_service.py`. -/
def persistedToResponse (p : PersistedEvent) : EventResponse :=
  { event_id := p.event_id, tenant_id := p.tenant_id, status := p.status,
    created_at := p.created_at, metadata := p.metadata, version := p.version }

/-- Version extraction in `RedisEventRepository.save`: `"1.0"` unless the
event metadata is truthy (non-empty) and holds a string under `"version"`. -/
def eventVersion (e : BaseEvent) : String :=
  match e.metadata with
  | none => "1.0"
  | some md =>
      if md.isEmpty then "1.0"
      else
        match metaGet md "version" with
        | some (.str v) => v
        | _ => "1.0"

/-- The `PersistedEvent` built by `RedisEventRepository.save`: status is
always `RECEIVED` at the application boundary. -/
def mkPersisted (e : BaseEvent) (correlation_id : String) : PersistedEvent :=
  { event_id := e.event_id, tenant_id := e.tenant_id,
    correlation_id := correlation_id, status := .received,
    created_at := e.created_at, metadata := e.metadata,
    version := eventVersion e }

/-- One message accepted by the broker (`RabbitMQPublisher.publish`):
exchange, routing key, the JSON payload fields, and the
`idempotency_key` header. -/
structure PublishedMessage where
  exchange : String
  routing_key : String
  event_id : String
  tenant_id : String
  correlation_id : String
  event_type : String
  status : String
  idempotency_key : String
  deriving DecidableEq, Repr

/-- The `event_created` audit record emitted at step 5 of the ingestion
transaction. -/
structure AuditRecord where
  event_id : String
  tenant_id : String
  correlation_id : String
  event_type : String
  status : String
  deriving DecidableEq, Repr

/-- Observable state touched by the ingestion transaction: the shared Redis
key space (event store and idempotency cache live in the same key space,
under the `event:` and `idempotency:` namespaces), the broker, the workflow
trigger, and the audit sink. -/
structure World where
  kv : List (String × String) := []
  published : List PublishedMessage := []
  workflow_started : List (String × String) := []
  audit_log : List AuditRecord := []
  deriving DecidableEq, Repr

/-- Application-layer errors surfaced by `create_event`
(`app/application/exceptions.py`; `validationError` stands for the pydantic
error raised by `EventResponse.model_validate_json`). -/
inductive AppError where
  | validationError (msg : String)
  | messagingFailure (msg : String)
  deriving DecidableEq, Repr

/-- Injected external-library behaviour: the pydantic JSON codec for
`EventResponse` (`model_dump_json` / `model_validate_json`, where `none`
models a raised `ValidationError`), the `json.dumps` encoding of the
repository payload, and fault injection for the broker publish and the
workflow trigger (`some msg` models a raised exception). -/
structure Env where
  encodeResponse : EventResponse → String
  decodeResponse : String → Option EventResponse
  encodeEvent : PersistedEvent → String
  publishErr : Option String := none
  workflowErr : Option String := none

/-- `RedisEventRepository.save`: build the `PersistedEvent` with status
`RECEIVED` and store its serialized payload under
`event:{tenant_id}:{event_id}` in the shared key-value store. -/
def repoSave (env : Env) (w : World) (e : BaseEvent) (correlation_id : String) :
    PersistedEvent × World :=
  let p := mkPersisted e correlation_id
  (p, { w with kv := kvSet w.kv (eventStoreKey e.tenant_id e.event_id) (env.encodeEvent p) })

/-- Steps 2–7 of `EventService.create_event` (the path taken when the
idempotency probe missed): persist, publish (a raised publish error becomes
`MessagingFailureError` and aborts before any further effect), trigger the
workflow best-effort (its errors are swallowed), emit the `event_created`
audit record, cache the response JSON under the idempotency key, return. -/
def createEventUncached (env : Env) (w : World) (event : BaseEvent)
    (tenant_id idempotency_key correlation_id : String) :
    Except AppError EventResponse × World :=
  let cache_key := idempotencyCacheKey tenant_id idempotency_key
  let pw := repoSave env w event correlation_id
  let p := pw.1
  let w1 := pw.2
  match env.publishErr with
  | some e => (.error (.messagingFailure ("Publish failed: " ++ e)), w1)
  | none =>
      let msg : PublishedMessage :=
        { exchange := "risk_events", routing_key := routingKey event,
          event_id := p.event_id, tenant_id := p.tenant_id,
          correlation_id := p.correlation_id, event_type := eventTypeName event,
          status := p.status.value, idempotency_key := idempotency_key }
      let w2 := { w1 with published := w1.published ++ [msg] }
      let w3 :=
        match env.workflowErr with
        | none =>
            { w2 with workflow_started := w2.workflow_started ++ [(p.event_id, p.tenant_id)] }
        | some _ => w2
      let audit : AuditRecord :=
        { event_id := p.event_id, tenant_id := p.tenant_id,
          correlation_id := correlation_id, event_type := eventTypeName event,
          status := EventStatus.received.value }
      let w4 := { w3 with audit_log := w3.audit_log ++ [audit] }
      let response := persistedToResponse p
      let w5 := { w4 with kv := kvSet w4.kv cache_key (env.encodeResponse response) }
      (.ok response, w5)

/-- `EventService.create_event`, step 1 first: the idempotency probe.
Python's `if cached:` is falsy both for an absent key and for an empty
string value, so an empty cached value falls through to the uncached path. -/
def createEvent (env : Env) (w : World) (event : BaseEvent)
    (tenant_id idempotency_key correlation_id : String) :
    Except AppError EventResponse × World :=
  match kvGet w.kv (idempotencyCacheKey tenant_id idempotency_key) with
  | some cached =>
      if cached = "" then
        createEventUncached env w event tenant_id idempotency_key correlation_id
      else
        match env.decodeResponse cached with
        | some r => (.ok r, w)
        | none => (.error (.validationError "cached response failed validation"), w)
  | none => createEventUncached env w event tenant_id idempotency_key correlation_id

/-- `n` repeated identical submissions, threading the world through. -/
def iterateCreate (env : Env) (event : BaseEvent)
    (tenant_id idempotency_key correlation_id : String) :
    Nat → World → List (Except AppError EventResponse) × World
  | 0, w => ([], w)
  | n + 1, w =>
      let rw := createEvent env w event tenant_id idempotency_key correlation_id
      let rest := iterateCreate env event tenant_id idempotency_key correlation_id n rw.2
      (rw.1 :: rest.1, rest.2)

/-- `RiskEventCreateRequest` (`app/domain/schemas/event.py`); only the
fields the router constructor reads. -/
structure RiskEventCreateRequest where
  risk_score : Option Rat := none
  category : Option String := none
  metadata : Option Metadata := none
  version : String
  deriving DecidableEq, Repr

/-- `ComplianceEventCreateRequest` (`app/domain/schemas/event.py`). -/
structure ComplianceEventCreateRequest where
  regulation_ref : Option String := none
  compliance_type : Option String := none
  metadata : Option Metadata := none
  version : String
  deriving DecidableEq, Repr

/-- `_request_to_risk_event` from `app/api/routers/events.py`. The
generated uuid and the current time are passed in as parameters. -/
def requestToRiskEvent (tenant_id event_id created_at : String)
    (req : RiskEventCreateRequest) : BaseEvent :=
  let md0 := req.metadata.getD []
  let md := if req.version = "" then md0 else metaSet md0 "version" (.str req.version)
  { event_id := event_id, tenant_id := tenant_id, status := .created,
    created_at := created_at,
    metadata := if md.isEmpty then none else some md,
    variant := .risk req.risk_score req.category }

/-- `_request_to_compliance_event` from `app/api/routers/events.py`. -/
def requestToComplianceEvent (tenant_id event_id created_at : String)
    (req : ComplianceEventCreateRequest) : BaseEvent :=
  let md0 := req.metadata.getD []
  let md := if req.version = "" then md0 else metaSet md0 "version" (.str req.version)
  { event_id := event_id, tenant_id := tenant_id, status := .created,
    created_at := created_at,
    metadata := if md.isEmpty then none else some md,
    variant := .compliance req.regulation_ref req.compliance_type }

/-- Concrete sample event used by the closed witness theorems. -/
def sampleEvent : BaseEvent :=
  { event_id := "e1", tenant_id := "t1", status := .created,
    created_at := "2026-01-01T00:00:00", metadata := none,
    variant := .risk (some 10) none }

/-- The response the sample event produces under correlation id `"c1"`. -/
def sampleResponse : EventResponse := persistedToResponse (mkPersisted sampleEvent "c1")

/-- A concrete environment with a trivially round-tripping codec for
`sampleResponse` and a healthy broker. -/
def sampleEnvOk : Env :=
  { encodeResponse := fun _ => "RESP",
    decodeResponse := fun s => if s = "RESP" then some sampleResponse else none,
    encodeEvent := fun _ => "PAYLOAD" }

/-- The same environment but with a broker whose publish raises. -/
def sampleEnvFail : Env := { sampleEnvOk with publishErr := some "boom" }

/-- One `audit_trail` entry appended by a workflow node
(`app/workflows/langgraph/nodes/*.py`). The wall-clock timestamp and the
measured `execution_ms` are ambient inputs, threaded in as parameters. -/
structure TrailEntry where
  node : String
  action : String
  ts : String
  model_version : String
  prompt_version : Nat
  execution_ms : Rat
  policy_result : Option String := none
  risk_score : Option Rat := none
  guardrail_result : Option String := none
  final_decision : Option String := none
  deriving DecidableEq, Repr

/-- The metadata keys of `raw_event` the nodes read
(`category`, `policy_override`, `blocked_pattern`). -/
structure RawMetadata where
  category : Option String := none
  policy_override : Bool := false
  blocked_pattern : Bool := false
  deriving DecidableEq, Repr

/-- The `raw_event` dict as read by the nodes: `event_type` and the
metadata sub-dict; `none` models both an absent and an empty sub-dict
(the nodes apply `or {}` before reading). -/
structure RawEvent where
  event_type : Option String := none
  metadata : Option RawMetadata := none
  deriving DecidableEq, Repr

/-- `RiskState` from `app/workflows/langgraph/state_models.py`. Transitions
are new values; the Lean embedding is pure, so the original is never
mutated by construction. -/
structure RiskState where
  event_id : String
  tenant_id : String
  correlation_id : String
  raw_event : RawEvent := {}
  retrieved_context : Option String := none
  policy_result : Option String := none
  risk_score : Option Rat := none
  guardrail_result : Option String := none
  final_decision : Option String := none
  model_version : String := "simulated@1"
  prompt_version : Nat := 1
  audit_trail : List TrailEntry := []
  idempotency_key : Option String := none
  deriving DecidableEq, Repr

/-- `retrieve_context` from `nodes/retrieval.py`. -/
def retrieve_context (s : RiskState) (ts : String) (ms : Rat) : RiskState :=
  let event_type := s.raw_event.event_type.getD "unknown"
  let context := "simulated_context:" ++ s.tenant_id ++ ":" ++ event_type
  let entry : TrailEntry :=
    { node := "retrieval", action := "context_retrieved", ts := ts,
      model_version := s.model_version, prompt_version := s.prompt_version,
      execution_ms := ms }
  { s with retrieved_context := some context,
           audit_trail := s.audit_trail ++ [entry] }

/-- `validate_policy` from `nodes/policy_validation.py`. -/
def validate_policy (s : RiskState) (ts : String) (ms : Rat) : RiskState :=
  let category :=
    match s.raw_event.metadata with
    | some m => m.category.getD ""
    | none => ""
  let policy_override :=
    match s.raw_event.metadata with
    | some m => m.policy_override
    | none => false
  let policy_result :=
    if policy_override || category = "sensitive" then "FAIL" else "PASS"
  let entry : TrailEntry :=
    { node := "policy_validation", action := "policy_validated", ts := ts,
      model_version := s.model_version, prompt_version := s.prompt_version,
      execution_ms := ms, policy_result := some policy_result }
  { s with policy_result := some policy_result,
           audit_trail := s.audit_trail ++ [entry] }

/-- `score_risk` from `nodes/risk_scoring.py`. -/
def score_risk (s : RiskState) (ts : String) (ms : Rat) : RiskState :=
  let event_type := s.raw_event.event_type.getD "standard"
  let category :=
    match s.raw_event.metadata with
    | some m => m.category
    | none => none
  let risk_score : Rat :=
    if event_type = "high_risk" then 85
    else if category = some "sensitive" then 70
    else if event_type = "low_risk" then 15
    else 30
  let entry : TrailEntry :=
    { node := "risk_scoring", action := "risk_scored", ts := ts,
      model_version := s.model_version, prompt_version := s.prompt_version,
      execution_ms := ms, risk_score := some risk_score }
  { s with risk_score := some risk_score,
           audit_trail := s.audit_trail ++ [entry] }

/-- `apply_guardrails` from `nodes/guardrails.py`. -/
def apply_guardrails (s : RiskState) (ts : String) (ms : Rat) : RiskState :=
  let risk_score := s.risk_score.getD 0
  let blocked :=
    match s.raw_event.metadata with
    | some m => m.blocked_pattern
    | none => false
  let guardrail_result :=
    if blocked || risk_score ≥ 75 then "VIOLATION" else "OK"
  let entry : TrailEntry :=
    { node := "guardrails", action := "guardrails_applied", ts := ts,
      model_version := s.model_version, prompt_version := s.prompt_version,
      execution_ms := ms, guardrail_result := some guardrail_result }
  { s with guardrail_result := some guardrail_result,
           audit_trail := s.audit_trail ++ [entry] }

/-- `make_decision` from `nodes/decision.py` (`HIGH_RISK_THRESHOLD = 75.0`;
`state.risk_score or 0.0` maps an absent score to `0`). -/
def make_decision (s : RiskState) (ts : String) (ms : Rat) : RiskState :=
  let policy_fail := s.policy_result = some "FAIL"
  let high_risk := s.risk_score.getD 0 ≥ 75
  let guardrail_violation := s.guardrail_result = some "VIOLATION"
  let final_decision :=
    if policy_fail ∨ high_risk ∨ guardrail_violation then "REQUIRE_APPROVAL"
    else "APPROVED"
  let entry : TrailEntry :=
    { node := "decision", action := "decision_made", ts := ts,
      model_version := s.model_version, prompt_version := s.prompt_version,
      execution_ms := ms, final_decision := some final_decision }
  { s with final_decision := some final_decision,
           audit_trail := s.audit_trail ++ [entry] }

/-- `_node_done` from `risk_workflow.py`: the audit trail already holds an
entry for this node. -/
def node_done (s : RiskState) (node : String) : Bool :=
  s.audit_trail.any (fun e => e.node == node)

/-- One guarded step of `run_all_nodes`: skip the node when its name is
already in the audit trail, else run it with the ambient clock. -/
def wfStep (nm : String) (f : RiskState → String → Rat → RiskState)
    (clock : String → String × Rat) (acc : RiskState × List String) :
    RiskState × List String :=
  if node_done acc.1 nm then acc
  else (f acc.1 (clock nm).1 (clock nm).2, acc.2 ++ [nm])

/-- `run_all_nodes` from `RiskWorkflow.run`: the five nodes in fixed order,
each guarded by `_node_done`. The second component is the list of node
names actually executed (ghost instrumentation for the resume property). -/
def run_all_nodes (clock : String → String × Rat) (s : RiskState) :
    RiskState × List String :=
  wfStep "decision" make_decision clock
    (wfStep "guardrails" apply_guardrails clock
      (wfStep "risk_scoring" score_risk clock
        (wfStep "policy_validation" validate_policy clock
          (wfStep "retrieval" retrieve_context clock (s, [])))))

/-- How many audit-trail entries name a given node. -/
def countNode (trail : List TrailEntry) (nm : String) : Nat :=
  (trail.filter (fun e => e.node == nm)).length

/-- `ModelStatus` from `app/governance/model_registry.py`. -/
inductive ModelStatus where
  | pending
  | approved
  | rejected
  deriving DecidableEq, Repr

/-- `ModelRecord` from `app/governance/model_registry.py`. -/
structure ModelRecord where
  model_name : String
  version : String
  checksum : String
  created_at : String
  approved : Bool
  approved_by : Option String := none
  approved_at : Option String := none
  status : ModelStatus
  deriving DecidableEq, Repr

/-- `PromptRecord` from `app/governance/prompt_registry.py`. -/
structure PromptRecord where
  prompt_id : String
  name : String
  version : Nat
  content : String
  change_reason : String
  author : String
  created_at : String
  deriving DecidableEq, Repr

/-- `RiskWorkflow._resolve_versions`: registries are injected as lookup
functions; `ModelRegistry.get_model(name)` with the version omitted returns
the repository's latest record whatever its status, and a lookup failure
swallowed by the `try/except: pass` is modelled as `none`. -/
def resolve_versions (modelLookup : Option (String → Option ModelRecord))
    (promptLookup : Option (String → Option PromptRecord))
    (s : RiskState) : RiskState :=
  let model_version :=
    match modelLookup with
    | some lookup =>
        match lookup "risk-model" with
        | some record => record.model_name ++ "@" ++ record.version
        | none => "simulated@1"
    | none => "simulated@1"
  let prompt_version :=
    match promptLookup with
    | some lookup =>
        match lookup "risk-prompt" with
        | some record => record.version
        | none => 1
    | none => 1
  if s.model_version ≠ model_version ∨ s.prompt_version ≠ prompt_version then
    { s with model_version := model_version, prompt_version := prompt_version }
  else s

/-- A concrete `PENDING` registry record for the C3 counterexample. -/
def pendingRecord : ModelRecord :=
  { model_name := "risk-model", version := "2", checksum := "abc",
    created_at := "2026-01-01", approved := false, status := .pending }

/-- A registry whose latest `risk-model` record is the pending one. -/
def pendingLookup : String → Option ModelRecord :=
  fun name => if name = "risk-model" then some pendingRecord else none

/-- A fresh risk state with built-in default versions. -/
def initialRiskState : RiskState :=
  { event_id := "e1", tenant_id := "t1", correlation_id := "c1" }

/-- A node function appends exactly one audit-trail entry naming itself. -/
def appendsEntry (nm : String) (f : RiskState → String → Rat → RiskState) : Prop :=
  ∀ s ts ms, ∃ e : TrailEntry, (f s ts ms).audit_trail = s.audit_trail ++ [e] ∧ e.node = nm

/-- The pre-existing retrieval audit entry for the resume witness. -/
def doneRetrievalEntry : TrailEntry :=
  { node := "retrieval", action := "context_retrieved", ts := "t0",
    model_version := "simulated@1", prompt_version := 1, execution_ms := 0 }

/-- A state resuming from a partial audit trail where retrieval already ran. -/
def doneRetrievalState : RiskState :=
  { initialRiskState with audit_trail := [doneRetrievalEntry] }

/-- A concrete ambient clock for the witness theorems. -/
def sampleClock : String → String × Rat := fun _ => ("t1", 0)

/-- `CircuitState` from `app/scalability/circuit_breaker.py` (`opened`
stands for the Python `OPEN`; `open` is reserved in Lean). -/
inductive CircuitState where
  | closed
  | opened
  | halfOpen
  deriving DecidableEq, Repr

/-- Circuit-breaker state; the monotonic clock readings are `Rat`. -/
structure CircuitBreaker where
  threshold : Nat := 5
  recovery_timeout : Rat := 30
  state : CircuitState := .closed
  failures : Nat := 0
  last_failure_time : Option Rat := none
  deriving DecidableEq, Repr

/-- The behaviour of the wrapped coroutine when it runs. -/
inductive CallOutcome where
  | success
  | failure
  deriving DecidableEq, Repr

/-- What `CircuitBreaker.call` does: fast rejection (wrapped function
never invoked), normal return, or propagated exception. -/
inductive CallResult where
  | rejected
  | ok
  | errored
  deriving DecidableEq, Repr

/-- `_record_success`: reset the counter, close the circuit. -/
def record_success (cb : CircuitBreaker) : CircuitBreaker :=
  { cb with failures := 0, state := .closed }

/-- `_record_failure` at monotonic time `now`: stamp the failure, bump the
counter, open once the counter reaches the threshold. -/
def record_failure (cb : CircuitBreaker) (now : Rat) : CircuitBreaker :=
  let failures := cb.failures + 1
  { cb with last_failure_time := some now, failures := failures,
            state := if cb.threshold ≤ failures then .opened else cb.state }

/-- The check-and-admit phase of `call` (the first lock block): `none`
means the call is rejected fast; `some cb` is the state under which the
wrapped function runs (half-opened if the recovery timeout elapsed). -/
def admitPhase (cb : CircuitBreaker) (now : Rat) : Option CircuitBreaker :=
  match cb.state with
  | .opened =>
      match cb.last_failure_time with
      | some t =>
          if cb.recovery_timeout ≤ now - t then some { cb with state := .halfOpen }
          else none
      | none => none
  | _ => some cb

/-- The record-outcome phase of `call` (the second lock block), including
the explicit half-open-to-open demotion after `_record_failure`. -/
def settle (cb : CircuitBreaker) (outcome : CallOutcome) (nowAfter : Rat) :
    CircuitBreaker :=
  match outcome with
  | .success => record_success cb
  | .failure =>
      let cb2 := record_failure cb nowAfter
      if cb2.state = .halfOpen then { cb2 with state := .opened } else cb2

/-- `CircuitBreaker.call`: admit (possibly rejecting fast), run the wrapped
function, record the outcome. The `Bool` reports whether the wrapped
function was invoked at all. -/
def CircuitBreaker.call (cb : CircuitBreaker) (now nowAfter : Rat)
    (outcome : CallOutcome) : CallResult × CircuitBreaker × Bool :=
  match admitPhase cb now with
  | none => (.rejected, cb, false)
  | some cb1 =>
      match outcome with
      | .success => (.ok, settle cb1 .success nowAfter, true)
      | .failure => (.errored, settle cb1 .failure nowAfter, true)

/-- A concrete tripped breaker for the C5 witness. -/
def openBreaker : CircuitBreaker :=
  { state := .opened, failures := 5, last_failure_time := some 100 }

/-- `ScalingAction` from `app/scalability/autoscaling_policy.py`. -/
inductive ScalingAction where
  | scale_up
  | scale_down
  | no_action
  deriving DecidableEq, Repr

/-- `ScalingDecision`: the action plus the reason string. The numeric
rendering inside reasons is abstracted (`toString` on `Rat`/`Option`
differs from Python float formatting); the claims concern the action. -/
structure ScalingDecision where
  action : ScalingAction
  reason : String
  deriving DecidableEq, Repr

/-- `MetricsSnapshot`: all signals optional, missing means no signal. -/
structure MetricsSnapshot where
  cpu_usage_pct : Option Rat := none
  request_latency_p99_ms : Option Rat := none
  failure_rate : Option Rat := none
  queue_depth : Option Int := none
  current_replicas : Int := 1
  deriving DecidableEq, Repr

/-- `AutoScalingPolicy` thresholds, defaults as in the constructor. -/
structure AutoScalingPolicy where
  cpu_up : Rat := 70
  cpu_down : Rat := 30
  latency_up : Rat := 500
  failure_up : Rat := 1 / 20
  queue_up : Int := 50
  min_replicas : Int := 1
  max_replicas : Int := 20
  deriving DecidableEq, Repr

/-- `cpu_usage_pct is not None and cpu_usage_pct >= cpu_up`. -/
def cpuBreach (p : AutoScalingPolicy) (m : MetricsSnapshot) : Bool :=
  match m.cpu_usage_pct with
  | some c => decide (p.cpu_up ≤ c)
  | none => false

/-- `request_latency_p99_ms is not None and ... >= latency_up`. -/
def latencyBreach (p : AutoScalingPolicy) (m : MetricsSnapshot) : Bool :=
  match m.request_latency_p99_ms with
  | some l => decide (p.latency_up ≤ l)
  | none => false

/-- `failure_rate is not None and ... >= failure_up`. -/
def failureBreach (p : AutoScalingPolicy) (m : MetricsSnapshot) : Bool :=
  match m.failure_rate with
  | some f => decide (p.failure_up ≤ f)
  | none => false

/-- `queue_depth is not None and ... >= queue_up`. -/
def queueBreach (p : AutoScalingPolicy) (m : MetricsSnapshot) : Bool :=
  match m.queue_depth with
  | some q => decide (p.queue_up ≤ q)
  | none => false

/-- `cpu_low`: absent, or at most `cpu_down` (the source uses `<=`). -/
def cpuLow (p : AutoScalingPolicy) (m : MetricsSnapshot) : Bool :=
  match m.cpu_usage_pct with
  | some c => decide (c ≤ p.cpu_down)
  | none => true

/-- `latency_low`: absent, or strictly below half the up threshold. -/
def latencyLow (p : AutoScalingPolicy) (m : MetricsSnapshot) : Bool :=
  match m.request_latency_p99_ms with
  | some l => decide (l < p.latency_up * (1 / 2))
  | none => true

/-- `failure_low`: absent, or strictly below half the up threshold. -/
def failureLow (p : AutoScalingPolicy) (m : MetricsSnapshot) : Bool :=
  match m.failure_rate with
  | some f => decide (f < p.failure_up * (1 / 2))
  | none => true

/-- `queue_low`: absent, or strictly below half the up threshold
(Python compares the int against a float). -/
def queueLow (p : AutoScalingPolicy) (m : MetricsSnapshot) : Bool :=
  match m.queue_depth with
  | some q => decide ((q : Rat) < (p.queue_up : Rat) * (1 / 2))
  | none => true

/-- `AutoScalingPolicy.evaluate`: the source's early-return chain,
flattened (each scale-up return is guarded by the same
`current_replicas < max_replicas` check, so falling through a breach at
max replicas is equivalent to the flattened chain). -/
def evaluate (p : AutoScalingPolicy) (m : MetricsSnapshot) : ScalingDecision :=
  let room := decide (m.current_replicas < p.max_replicas)
  if cpuBreach p m && room then
    ⟨.scale_up, "cpu_usage=" ++ toString m.cpu_usage_pct ++ "% >= " ++
      toString p.cpu_up ++ "%"⟩
  else if latencyBreach p m && room then
    ⟨.scale_up, "latency_p99=" ++ toString m.request_latency_p99_ms ++ "ms >= " ++
      toString p.latency_up ++ "ms"⟩
  else if failureBreach p m && room then
    ⟨.scale_up, "failure_rate=" ++ toString m.failure_rate ++ " >= " ++
      toString p.failure_up⟩
  else if queueBreach p m && room then
    ⟨.scale_up, "queue_depth=" ++ toString m.queue_depth ++ " >= " ++
      toString p.queue_up⟩
  else if decide (m.current_replicas ≤ p.min_replicas) then
    ⟨.no_action, "at min_replicas"⟩
  else if cpuLow p m && latencyLow p m && failureLow p m && queueLow p m then
    ⟨.scale_down, "all metrics below scale-down thresholds"⟩
  else
    ⟨.no_action, "no scaling signal"⟩

/-- Modelled from the spec (claim C9 wording): scale up when some present
signal meets its up threshold and there is room below `max_replicas`. -/
def specScaleUp (p : AutoScalingPolicy) (m : MetricsSnapshot) : Prop :=
  ((∃ c, m.cpu_usage_pct = some c ∧ p.cpu_up ≤ c) ∨
    (∃ l, m.request_latency_p99_ms = some l ∧ p.latency_up ≤ l) ∨
    (∃ f, m.failure_rate = some f ∧ p.failure_up ≤ f) ∨
    (∃ q, m.queue_depth = some q ∧ p.queue_up ≤ q)) ∧
  m.current_replicas < p.max_replicas

/-- Modelled from the spec (claim C9 wording, taken literally): scale down
when above `min_replicas` and every present signal is below half of its up
threshold, with cpu *strictly below* `cpu_down`. -/
def specScaleDownStrict (p : AutoScalingPolicy) (m : MetricsSnapshot) : Prop :=
  p.min_replicas < m.current_replicas ∧
  (∀ c, m.cpu_usage_pct = some c → c < p.cpu_down) ∧
  (∀ l, m.request_latency_p99_ms = some l → l < p.latency_up * (1 / 2)) ∧
  (∀ f, m.failure_rate = some f → f < p.failure_up * (1 / 2)) ∧
  (∀ q, m.queue_depth = some q → (q : Rat) < (p.queue_up : Rat) * (1 / 2))

/-- The code's scale-down condition: as above but cpu *at most* `cpu_down`. -/
def specScaleDown (p : AutoScalingPolicy) (m : MetricsSnapshot) : Prop :=
  p.min_replicas < m.current_replicas ∧
  (∀ c, m.cpu_usage_pct = some c → c ≤ p.cpu_down) ∧
  (∀ l, m.request_latency_p99_ms = some l → l < p.latency_up * (1 / 2)) ∧
  (∀ f, m.failure_rate = some f → f < p.failure_up * (1 / 2)) ∧
  (∀ q, m.queue_depth = some q → (q : Rat) < (p.queue_up : Rat) * (1 / 2))

/-- Symbolic model of the Fernet layer in `app/security/encryption.py`:
`_derive_key` (PBKDF2-HMAC-SHA256 under a fixed domain salt) is modelled
as an ideal KDF, injective in the whitespace-stripped secret the
constructor feeds it (`raw.strip()`). -/
structure FernetKey where
  derived : String
  deriving DecidableEq, Repr

/-- Python `str.strip()`: drop leading and trailing whitespace
(executable model; Lean's `String.trim` does not reduce in the kernel). -/
def pyStrip (s : String) : String :=
  ⟨((s.data.dropWhile Char.isWhitespace).reverse.dropWhile Char.isWhitespace).reverse⟩

/-- `_derive_key(raw.strip())` as performed by the constructor. -/
def deriveKey (secret : String) : FernetKey := ⟨pyStrip secret⟩

/-- The `EncryptionError` paths of the service. -/
inductive EncErr where
  | missingKey
  | invalidToken
  deriving DecidableEq, Repr

/-- `EncryptionService.__init__`: `raw = key or env`, fail when `raw` is
absent, empty, or whitespace-only, else hold a Fernet over the derived
key. -/
def mkEncryptionService (key envKey : Option String) : Except EncErr FernetKey :=
  let raw :=
    match key with
    | some k => if k = "" then envKey else some k
    | none => envKey
  match raw with
  | none => .error .missingKey
  | some r => if pyStrip r = "" then .error .missingKey else .ok (deriveKey r)

/-- A Fernet token in the symbolic model: the signing key and the
plaintext (ideal authenticated encryption). -/
structure FernetToken where
  key : FernetKey
  plaintext : String
  deriving DecidableEq, Repr

/-- `encrypt`. -/
def encrypt (k : FernetKey) (data : String) : FernetToken := ⟨k, data⟩

/-- `decrypt`: authenticated decryption; raises `EncryptionError`
(`InvalidToken`) exactly when the HMAC key differs from the one that
built the token. -/
def decrypt (k : FernetKey) (tok : FernetToken) : Except EncErr String :=
  if tok.key = k then .ok tok.plaintext else .error .invalidToken

end AiRiskEngine

namespace AiRiskEngine

theorem kvGet_kvSet_self (kv : List (String × String)) (k v : String) :
    kvGet (kvSet kv k v) k = some v := by
  induction kv with
  | nil => simp [kvSet, kvGet]
  | cons hd tl ih =>
      obtain ⟨k0, v0⟩ := hd
      by_cases h : k0 = k
      · simp [kvSet, kvGet, h]
      · simp [kvSet, kvGet, h, ih]

theorem kvGet_kvSet_ne (kv : List (String × String)) (k v k2 : String)
    (h : k2 ≠ k) : kvGet (kvSet kv k v) k2 = kvGet kv k2 := by
  induction kv with
  | nil => simp [kvSet, kvGet, Ne.symm h]
  | cons hd tl ih =>
      obtain ⟨k0, v0⟩ := hd
      by_cases h0 : k0 = k
      · subst h0
        simp [kvSet, kvGet, Ne.symm h]
      · by_cases h2 : k0 = k2
        · subst h2
          simp [kvSet, kvGet, h0, h]
        · simp [kvSet, kvGet, h0, h2, ih]

theorem idempotency_key_ne_event_key (a b c d : String) :
    idempotencyCacheKey a b ≠ eventStoreKey c d := by
  intro h
  have h2 := congrArg String.data h
  simp only [idempotencyCacheKey, eventStoreKey, String.data_append] at h2
  simp at h2

theorem append_cons_eq_of_not_mem {c : Char} (l1 : List Char) (l2 r1 r2 : List Char)
    (h1 : c ∉ l1) (h2 : c ∉ l2) (h : l1 ++ c :: r1 = l2 ++ c :: r2) :
    l1 = l2 ∧ r1 = r2 := by
  induction l1 generalizing l2 with
  | nil =>
      cases l2 with
      | nil => simpa using h
      | cons b t2 =>
          simp only [List.nil_append, List.cons_append, List.cons.injEq] at h
          exact absurd (h.1 ▸ List.mem_cons_self b t2) h2
  | cons a t1 ih =>
      cases l2 with
      | nil =>
          simp only [List.nil_append, List.cons_append, List.cons.injEq] at h
          exact absurd (h.1.symm ▸ List.mem_cons_self a t1) h1
      | cons b t2 =>
          simp only [List.cons_append, List.cons.injEq] at h
          have hrec := ih t2 (fun hm => h1 (List.mem_cons_of_mem a hm))
            (fun hm => h2 (List.mem_cons_of_mem b hm)) h.2
          exact ⟨by rw [h.1, hrec.1], hrec.2⟩

/-- Helper: strings with equal character lists are equal. -/
theorem string_eq_of_data_eq (s t : String) (h : s.data = t.data) : s = t := by
  exact String.ext h

/-- C7 (as corrected): the idempotency-cache key construction
`idempotency:{tenant}:{key}` is injective in the tenant as long as tenant
identifiers contain no colon character; distinct colon-free tenants can
never collide in the shared cache, whatever the idempotency keys are. -/
theorem idempotency_key_injective_across_tenants (t1 k1 t2 k2 : String)
    (h1 : (':') ∉ t1.data) (h2 : (':') ∉ t2.data) (hne : t1 ≠ t2) :
    idempotencyCacheKey t1 k1 ≠ idempotencyCacheKey t2 k2 := by
  intro h
  have hd := congrArg String.data h
  simp only [idempotencyCacheKey, String.data_append, List.append_assoc] at hd
  have hd2 := List.append_cancel_left hd
  have hd3 : t1.data ++ (':') :: k1.data = t2.data ++ (':') :: k2.data := by
    simpa using hd2
  have hsplit := append_cons_eq_of_not_mem t1.data t2.data k1.data k2.data h1 h2 hd3
  exact hne (string_eq_of_data_eq t1 t2 hsplit.1)

/-- C7 witness: the amended injectivity applied at concrete colon-free tenants. -/
theorem idempotency_key_injective_across_tenants_witness :
    idempotencyCacheKey "tenant-a" "key1" ≠ idempotencyCacheKey "tenant-b" "key2" :=
  idempotency_key_injective_across_tenants "tenant-a" "key1" "tenant-b" "key2"
    (by decide) (by decide) (by decide)

/-- C7 counterexample: with tenants that may contain a colon, the raw claim
fails — two distinct non-empty tenants produce the same cache key. -/
theorem idempotency_key_cross_tenant_collision :
    idempotencyCacheKey "a" "b:c" = idempotencyCacheKey "a:b" "c" ∧
      "a" ≠ "a:b" ∧ "a" ≠ "" ∧ "a:b" ≠ "" := by
  refine ⟨by decide, by decide, by decide, by decide⟩

/-- Equational form of the publish-failure path: probe missed and the broker
raised, so the transaction stops right after the persist step. -/
theorem createEvent_miss_fail_eq (env : Env) (w : World) (event : BaseEvent)
    (t k c err : String)
    (hmiss : kvGet w.kv (idempotencyCacheKey t k) = none)
    (hfail : env.publishErr = some err) :
    createEvent env w event t k c =
      (.error (.messagingFailure ("Publish failed: " ++ err)),
        { w with kv := (kvSet w.kv (eventStoreKey event.tenant_id event.event_id)
            (env.encodeEvent (mkPersisted event c))) }) := by
  simp only [createEvent, hmiss, createEventUncached, repoSave, hfail]

/-- Equational facts about the successful uncached path: the returned
response and the idempotency-cache entry written at step 6. -/
theorem createEvent_miss_ok_facts (env : Env) (w : World) (event : BaseEvent)
    (t k c : String)
    (hmiss : kvGet w.kv (idempotencyCacheKey t k) = none)
    (hok : env.publishErr = none) :
    (createEvent env w event t k c).1 =
        .ok (persistedToResponse (mkPersisted event c)) ∧
      kvGet (createEvent env w event t k c).2.kv (idempotencyCacheKey t k) =
        some (env.encodeResponse (persistedToResponse (mkPersisted event c))) := by
  cases hwf : env.workflowErr with
  | none =>
      constructor
      · simp only [createEvent, hmiss, createEventUncached, repoSave, hok, hwf]
      · simp only [createEvent, hmiss, createEventUncached, repoSave, hok, hwf]
        exact kvGet_kvSet_self _ _ _
  | some msg =>
      constructor
      · simp only [createEvent, hmiss, createEventUncached, repoSave, hok, hwf]
      · simp only [createEvent, hmiss, createEventUncached, repoSave, hok, hwf]
        exact kvGet_kvSet_self _ _ _

/-- C1: if the idempotency probe misses and the broker publish raises, then
`create_event` surfaces `MessagingFailure`, the persisted event remains in
the event store with status `RECEIVED`, and nothing is written under
`idempotency:{t}:{k}` (nor is anything published or any workflow started). -/
theorem create_event_publish_failure_aborts (env : Env) (w : World)
    (event : BaseEvent) (t k c err : String)
    (hmiss : kvGet w.kv (idempotencyCacheKey t k) = none)
    (hfail : env.publishErr = some err) :
    (createEvent env w event t k c).1 =
        .error (.messagingFailure ("Publish failed: " ++ err)) ∧
      (∃ p : PersistedEvent, p.event_id = event.event_id ∧
        p.tenant_id = event.tenant_id ∧ p.status = .received ∧
        kvGet (createEvent env w event t k c).2.kv
            (eventStoreKey event.tenant_id event.event_id) =
          some (env.encodeEvent p)) ∧
      kvGet (createEvent env w event t k c).2.kv (idempotencyCacheKey t k) = none ∧
      (createEvent env w event t k c).2.published = w.published ∧
      (createEvent env w event t k c).2.workflow_started = w.workflow_started := by
  have he := createEvent_miss_fail_eq env w event t k c err hmiss hfail
  refine ⟨?_, ⟨mkPersisted event c, rfl, rfl, rfl, ?_⟩, ?_, ?_, ?_⟩
  · rw [he]
  · rw [he]
    exact kvGet_kvSet_self _ _ _
  · rw [he]
    rw [kvGet_kvSet_ne _ _ _ _ (idempotency_key_ne_event_key t k event.tenant_id event.event_id)]
    exact hmiss
  · rw [he]
  · rw [he]

/-- C1 witness: the publish-failure theorem applied at concrete inputs. -/
theorem create_event_publish_failure_aborts_witness :
    kvGet ({} : World).kv (idempotencyCacheKey "t1" "k1") = none ∧
      sampleEnvFail.publishErr = some "boom" ∧
      ((createEvent sampleEnvFail {} sampleEvent "t1" "k1" "c1").1 =
          .error (.messagingFailure ("Publish failed: " ++ "boom")) ∧
        (∃ p : PersistedEvent, p.event_id = sampleEvent.event_id ∧
          p.tenant_id = sampleEvent.tenant_id ∧ p.status = .received ∧
          kvGet (createEvent sampleEnvFail {} sampleEvent "t1" "k1" "c1").2.kv
              (eventStoreKey sampleEvent.tenant_id sampleEvent.event_id) =
            some (sampleEnvFail.encodeEvent p)) ∧
        kvGet (createEvent sampleEnvFail {} sampleEvent "t1" "k1" "c1").2.kv
            (idempotencyCacheKey "t1" "k1") = none ∧
        (createEvent sampleEnvFail {} sampleEvent "t1" "k1" "c1").2.published =
          ({} : World).published ∧
        (createEvent sampleEnvFail {} sampleEvent "t1" "k1" "c1").2.workflow_started =
          ({} : World).workflow_started) :=
  ⟨rfl, rfl,
    create_event_publish_failure_aborts sampleEnvFail {} sampleEvent "t1" "k1" "c1" "boom" rfl rfl⟩

/-- Replay path of `create_event`: a non-empty cached value that
deserializes is returned as-is and the world is untouched. -/
theorem createEvent_replay (env : Env) (w : World) (event : BaseEvent)
    (t k c s : String) (r : EventResponse)
    (hhit : kvGet w.kv (idempotencyCacheKey t k) = some s)
    (hne : s ≠ "") (hdec : env.decodeResponse s = some r) :
    createEvent env w event t k c = (.ok r, w) := by
  simp only [createEvent, hhit, if_neg hne, hdec]

/-- If one call is a no-op fixpoint, every repetition is. -/
theorem iterateCreate_fixpoint (env : Env) (event : BaseEvent)
    (t k c : String) (w : World) (r : Except AppError EventResponse)
    (hfix : createEvent env w event t k c = (r, w)) :
    ∀ m, iterateCreate env event t k c m w = (List.replicate m r, w) := by
  intro m
  induction m with
  | zero => simp [iterateCreate]
  | succ n ih => simp [iterateCreate, hfix, ih, List.replicate_succ]

/-- C2 (amended): a cache hit on a *non-empty* value that deserializes to a
response `r` returns `r` with no side effect at all; and after a first
successful uncached call, every later identical submission returns the
first response and leaves the world exactly as the first call left it, so
only the first call persists or publishes. -/
theorem create_event_idempotent_replay (env : Env) (w : World)
    (event : BaseEvent) (t k c : String) :
    (∀ s r, kvGet w.kv (idempotencyCacheKey t k) = some s → s ≠ "" →
      env.decodeResponse s = some r →
      createEvent env w event t k c = (.ok r, w)) ∧
    (kvGet w.kv (idempotencyCacheKey t k) = none → env.publishErr = none →
      env.decodeResponse
          (env.encodeResponse (persistedToResponse (mkPersisted event c))) =
        some (persistedToResponse (mkPersisted event c)) →
      env.encodeResponse (persistedToResponse (mkPersisted event c)) ≠ "" →
      ∀ n, 1 ≤ n →
        (iterateCreate env event t k c n w).2 =
            (createEvent env w event t k c).2 ∧
          ∀ x ∈ (iterateCreate env event t k c n w).1,
            x = .ok (persistedToResponse (mkPersisted event c))) := by
  constructor
  · intro s r hhit hne hdec
    exact createEvent_replay env w event t k c s r hhit hne hdec
  · intro hmiss hok hrt hne n hn
    obtain ⟨h1, h2⟩ := createEvent_miss_ok_facts env w event t k c hmiss hok
    have hfix :
        createEvent env (createEvent env w event t k c).2 event t k c =
          (.ok (persistedToResponse (mkPersisted event c)),
            (createEvent env w event t k c).2) :=
      createEvent_replay env (createEvent env w event t k c).2 event t k c _ _ h2 hne hrt
    cases n with
    | zero => exact absurd hn (by simp)
    | succ m =>
        have hiter :
            iterateCreate env event t k c (m + 1) w =
              ((createEvent env w event t k c).1 ::
                  (List.replicate m
                    (Except.ok (persistedToResponse (mkPersisted event c)))),
                (createEvent env w event t k c).2) := by
          simp only [iterateCreate]
          rw [iterateCreate_fixpoint env event t k c _ _ hfix m]
        refine ⟨by rw [hiter], ?_⟩
        intro x hx
        rw [hiter] at hx
        rcases List.mem_cons.mp hx with h | h
        · rw [h, h1]
        · exact List.eq_of_mem_replicate h

/-- C2 counterexample: the idempotency cache *holds a value* (the empty
string) under the probed key, yet the call is not a pure replay — it
publishes to the broker, because Python's `if cached:` treats the empty
string as a miss. -/
theorem create_event_cached_empty_value_counterexample :
    kvGet ({ kv := [(idempotencyCacheKey "t1" "k1", "")] } : World).kv
        (idempotencyCacheKey "t1" "k1") = some "" ∧
      (createEvent sampleEnvOk { kv := [(idempotencyCacheKey "t1" "k1", "")] }
          sampleEvent "t1" "k1" "c1").2.published.length = 1 := by
  constructor
  · simp [kvGet]
  · rfl

/-- C2 witness: the amended idempotency theorem applied at concrete inputs,
with two repetitions. -/
theorem create_event_idempotent_replay_witness :
    kvGet ({} : World).kv (idempotencyCacheKey "t1" "k1") = none ∧
      ((iterateCreate sampleEnvOk sampleEvent "t1" "k1" "c1" 2 {}).2 =
          (createEvent sampleEnvOk {} sampleEvent "t1" "k1" "c1").2 ∧
        ∀ x ∈ (iterateCreate sampleEnvOk sampleEvent "t1" "k1" "c1" 2 {}).1,
          x = .ok (persistedToResponse (mkPersisted sampleEvent "c1"))) :=
  ⟨rfl,
    (create_event_idempotent_replay sampleEnvOk {} sampleEvent "t1" "k1" "c1").2
      rfl rfl rfl (by decide) 2 (by decide)⟩

/-- C8: an uncached call with a healthy broker publishes exactly one
message, on exchange `risk_events`, carrying the
`{event_id, tenant_id, correlation_id, event_type, status}` payload and the
`idempotency_key` header; the routing key is `risk.created` for risk events
and `compliance.created` for compliance events, and the events built by the
API routers always fall in one of these two cases. -/
theorem create_event_publish_contract (env : Env) (w : World) (event : BaseEvent)
    (t k c : String)
    (hmiss : kvGet w.kv (idempotencyCacheKey t k) = none)
    (hok : env.publishErr = none)
    (hapi : (∃ rs cat, event.variant = .risk rs cat) ∨
      (∃ rr ct, event.variant = .compliance rr ct)) :
    (createEvent env w event t k c).2.published =
        w.published ++
          [{ exchange := "risk_events", routing_key := routingKey event,
             event_id := event.event_id, tenant_id := event.tenant_id,
             correlation_id := c, event_type := eventTypeName event,
             status := "received", idempotency_key := k }] ∧
      ((∃ rs cat, event.variant = .risk rs cat) →
        routingKey event = "risk.created") ∧
      ((∃ rr ct, event.variant = .compliance rr ct) →
        routingKey event = "compliance.created") ∧
      (routingKey event = "risk.created" ∨
        routingKey event = "compliance.created") ∧
      (∀ tid eid ca req, routingKey (requestToRiskEvent tid eid ca req) = "risk.created") ∧
      (∀ tid eid ca req,
        routingKey (requestToComplianceEvent tid eid ca req) = "compliance.created") := by
  refine ⟨?_, ?_, ?_, ?_, ?_, ?_⟩
  · cases hwf : env.workflowErr with
    | none =>
        simp [createEvent, hmiss, createEventUncached, repoSave, hok, hwf,
          mkPersisted, EventStatus.value]
    | some msg =>
        simp [createEvent, hmiss, createEventUncached, repoSave, hok, hwf,
          mkPersisted, EventStatus.value]
  · rintro ⟨rs, cat, hv⟩
    simp [routingKey, hv]
  · rintro ⟨rr, ct, hv⟩
    simp [routingKey, hv]
  · rcases hapi with ⟨rs, cat, hv⟩ | ⟨rr, ct, hv⟩
    · exact Or.inl (by simp [routingKey, hv])
    · exact Or.inr (by simp [routingKey, hv])
  · intro tid eid ca req
    simp [routingKey, requestToRiskEvent]
  · intro tid eid ca req
    simp [routingKey, requestToComplianceEvent]

/-- C3 (amended): version resolution takes whatever record the model
registry returns for `risk-model`, regardless of its approval status; the
built-in default `simulated@1` is used only when the registry returns no
record at all. -/
theorem resolve_versions_model_version
    (lookup : String → Option ModelRecord)
    (promptLookup : Option (String → Option PromptRecord)) (s : RiskState) :
    (resolve_versions (some lookup) promptLookup s).model_version =
      (match lookup "risk-model" with
       | some r => r.model_name ++ "@" ++ r.version
       | none => "simulated@1") := by
  simp only [resolve_versions]
  split
  · rfl
  · next h =>
      push_neg at h
      exact h.1

/-- C3 counterexample: a `PENDING` (hence unapproved) registry record still
overrides the built-in default model version. -/
theorem resolve_versions_pending_counterexample :
    pendingRecord.status = .pending ∧ pendingRecord.approved = false ∧
      (resolve_versions (some pendingLookup) none initialRiskState).model_version =
        "risk-model@2" ∧
      "risk-model@2" ≠ "simulated@1" :=
  ⟨rfl, rfl, by decide, by decide⟩

/-- `Option.getD 0` compared against the decision threshold. -/
theorem getD_zero_ge_iff (o : Option Rat) :
    (75 : Rat) ≤ o.getD 0 ↔ ∃ r, o = some r ∧ 75 ≤ r := by
  cases o with
  | none => simp
  | some r => simp

/-- C6: the decision node sets `final_decision` to `REQUIRE_APPROVAL` iff
policy failed, the risk score is at least 75, or a guardrail violation was
recorded; in every other case it sets `APPROVED`. -/
theorem decision_node_iff (s : RiskState) (ts : String) (ms : Rat) :
    ((make_decision s ts ms).final_decision = some "REQUIRE_APPROVAL" ↔
      (s.policy_result = some "FAIL" ∨
        (∃ r, s.risk_score = some r ∧ 75 ≤ r) ∨
        s.guardrail_result = some "VIOLATION")) ∧
    ((make_decision s ts ms).final_decision = some "REQUIRE_APPROVAL" ∨
      (make_decision s ts ms).final_decision = some "APPROVED") := by
  have haux := getD_zero_ge_iff s.risk_score
  simp only [make_decision]
  by_cases h : s.policy_result = some "FAIL" ∨ (75 : Rat) ≤ s.risk_score.getD 0 ∨
      s.guardrail_result = some "VIOLATION"
  · rw [if_pos h]
    refine ⟨⟨fun _ => ?_, fun _ => rfl⟩, Or.inl rfl⟩
    rcases h with h | h | h
    · exact Or.inl h
    · exact Or.inr (Or.inl (haux.mp h))
    · exact Or.inr (Or.inr h)
  · rw [if_neg h]
    refine ⟨⟨fun hcontra => absurd hcontra (by simp), fun hr => ?_⟩, Or.inr rfl⟩
    rcases hr with h1 | h2 | h3
    · exact absurd (Or.inl h1) h
    · exact absurd (Or.inr (Or.inl (haux.mpr h2))) h
    · exact absurd (Or.inr (Or.inr h3)) h

theorem retrieve_appends : appendsEntry "retrieval" retrieve_context :=
  fun _ _ _ => ⟨_, rfl, rfl⟩

theorem policy_appends : appendsEntry "policy_validation" validate_policy :=
  fun _ _ _ => ⟨_, rfl, rfl⟩

theorem score_appends : appendsEntry "risk_scoring" score_risk :=
  fun _ _ _ => ⟨_, rfl, rfl⟩

theorem guardrails_appends : appendsEntry "guardrails" apply_guardrails :=
  fun _ _ _ => ⟨_, rfl, rfl⟩

theorem decision_appends : appendsEntry "decision" make_decision :=
  fun _ _ _ => ⟨_, rfl, rfl⟩

/-- One guarded step preserves done-ness, the per-node entry count, and
(non-)membership of an already-done node in the executed list. -/
theorem wfStep_preserves (nm : String) (f : RiskState → String → Rat → RiskState)
    (clock : String → String × Rat) (acc : RiskState × List String)
    (name : String) (hf : appendsEntry nm f)
    (hdone : node_done acc.1 name = true) :
    node_done (wfStep nm f clock acc).1 name = true ∧
      countNode (wfStep nm f clock acc).1.audit_trail name =
        countNode acc.1.audit_trail name ∧
      (name ∈ (wfStep nm f clock acc).2 ↔ name ∈ acc.2) := by
  unfold wfStep
  by_cases hd : node_done acc.1 nm
  · rw [if_pos hd]
    exact ⟨hdone, rfl, Iff.rfl⟩
  · rw [if_neg hd]
    have hne : nm ≠ name := fun hh => hd (hh ▸ hdone)
    obtain ⟨e, he, hen⟩ := hf acc.1 (clock nm).1 (clock nm).2
    refine ⟨?_, ?_, ?_⟩
    · unfold node_done at hdone ⊢
      rw [he, List.any_append, hdone]
      rfl
    · unfold countNode
      rw [he, List.filter_append]
      have : (List.filter (fun e => e.node == name) [e]) = [] := by
        simp [hen, hne]
      rw [this, List.append_nil]
    · simp [List.mem_append, Ne.symm hne]

/-- C4: every workflow node returns a new state whose audit trail is the
input trail extended by exactly one entry naming that node (the input value
is untouched — transitions are copies); and `run_all_nodes` never executes,
nor appends a second entry for, a node whose name already appears in the
audit trail. -/
theorem nodes_append_once_and_resume :
    appendsEntry "retrieval" retrieve_context ∧
      appendsEntry "policy_validation" validate_policy ∧
      appendsEntry "risk_scoring" score_risk ∧
      appendsEntry "guardrails" apply_guardrails ∧
      appendsEntry "decision" make_decision ∧
      (∀ clock s name, node_done s name = true →
        name ∉ (run_all_nodes clock s).2 ∧
          countNode (run_all_nodes clock s).1.audit_trail name =
            countNode s.audit_trail name) := by
  refine ⟨retrieve_appends, policy_appends, score_appends, guardrails_appends,
    decision_appends, ?_⟩
  intro clock s name hdone
  have h1 := wfStep_preserves "retrieval" retrieve_context clock (s, []) name
    retrieve_appends hdone
  have h2 := wfStep_preserves "policy_validation" validate_policy clock
    (wfStep "retrieval" retrieve_context clock (s, [])) name policy_appends h1.1
  have h3 := wfStep_preserves "risk_scoring" score_risk clock
    (wfStep "policy_validation" validate_policy clock
      (wfStep "retrieval" retrieve_context clock (s, []))) name score_appends h2.1
  have h4 := wfStep_preserves "guardrails" apply_guardrails clock
    (wfStep "risk_scoring" score_risk clock
      (wfStep "policy_validation" validate_policy clock
        (wfStep "retrieval" retrieve_context clock (s, [])))) name
    guardrails_appends h3.1
  have h5 := wfStep_preserves "decision" make_decision clock
    (wfStep "guardrails" apply_guardrails clock
      (wfStep "risk_scoring" score_risk clock
        (wfStep "policy_validation" validate_policy clock
          (wfStep "retrieval" retrieve_context clock (s, []))))) name
    decision_appends h4.1
  constructor
  · unfold run_all_nodes
    rw [h5.2.2, h4.2.2, h3.2.2, h2.2.2, h1.2.2]
    exact List.not_mem_nil name
  · unfold run_all_nodes
    rw [h5.2.1, h4.2.1, h3.2.1, h2.2.1, h1.2.1]

/-- C4 witness: resuming from a trail that already holds a `retrieval`
entry neither re-executes the node nor duplicates its audit record. -/
theorem nodes_append_once_and_resume_witness :
    node_done doneRetrievalState "retrieval" = true ∧
      ("retrieval" ∉ (run_all_nodes sampleClock doneRetrievalState).2 ∧
        countNode (run_all_nodes sampleClock doneRetrievalState).1.audit_trail
            "retrieval" =
          countNode doneRetrievalState.audit_trail "retrieval") :=
  ⟨by decide,
    nodes_append_once_and_resume.2.2.2.2.2 sampleClock doneRetrievalState
      "retrieval" (by decide)⟩

/-- C5: the three-state circuit breaker. While OPEN and inside the
recovery window every call is rejected without invoking the wrapped
function and without changing state; once `now - last_failure` reaches
`recovery_timeout` the next call is admitted with the state moved to
HALF_OPEN; a successful call closes the breaker and zeroes the counter;
a failed call in HALF_OPEN re-opens it; in CLOSED each failure increments
the counter and the breaker opens exactly on reaching the threshold. -/
theorem circuit_breaker_state_machine :
    (∀ (cb : CircuitBreaker) (now nowAfter t : Rat) (oc : CallOutcome),
      cb.state = .opened → cb.last_failure_time = some t →
      now - t < cb.recovery_timeout →
      CircuitBreaker.call cb now nowAfter oc = (.rejected, cb, false)) ∧
    (∀ (cb : CircuitBreaker) (now nowAfter t : Rat) (oc : CallOutcome),
      cb.state = .opened → cb.last_failure_time = some t →
      cb.recovery_timeout ≤ now - t →
      admitPhase cb now = some { cb with state := .halfOpen } ∧
        (CircuitBreaker.call cb now nowAfter oc).2.2 = true) ∧
    (∀ (cb : CircuitBreaker) (nowAfter : Rat),
      settle cb .success nowAfter = { cb with state := .closed, failures := 0 }) ∧
    (∀ (cb : CircuitBreaker) (nowAfter : Rat), cb.state = .halfOpen →
      (settle cb .failure nowAfter).state = .opened) ∧
    (∀ (cb : CircuitBreaker) (nowAfter : Rat), cb.state = .closed →
      (settle cb .failure nowAfter).failures = cb.failures + 1 ∧
        ((settle cb .failure nowAfter).state = .opened ↔
          cb.threshold ≤ cb.failures + 1)) := by
  refine ⟨?_, ?_, ?_, ?_, ?_⟩
  · intro cb now nowAfter t oc hst hlast hlt
    have hprobe : admitPhase cb now = none := by
      simp [admitPhase, hst, hlast, not_le.mpr hlt]
    simp [CircuitBreaker.call, hprobe]
  · intro cb now nowAfter t oc hst hlast hge
    have hprobe : admitPhase cb now = some { cb with state := .halfOpen } := by
      simp [admitPhase, hst, hlast, hge]
    refine ⟨hprobe, ?_⟩
    cases oc with
    | success => simp [CircuitBreaker.call, hprobe]
    | failure => simp [CircuitBreaker.call, hprobe]
  · intro cb nowAfter
    rfl
  · intro cb nowAfter hst
    by_cases h : cb.threshold ≤ cb.failures + 1
    · simp [settle, record_failure, hst, h]
    · simp [settle, record_failure, hst, h]
  · intro cb nowAfter hst
    by_cases h : cb.threshold ≤ cb.failures + 1
    · constructor
      · simp [settle, record_failure, hst, h]
      · simp [settle, record_failure, hst, h]
    · constructor
      · simp [settle, record_failure, hst, h]
      · simp [settle, record_failure, hst, h]

/-- C5 witness: a tripped breaker rejects inside the window and half-opens
after the recovery timeout. -/
theorem circuit_breaker_state_machine_witness :
    openBreaker.state = .opened ∧
      (110 : Rat) - 100 < openBreaker.recovery_timeout ∧
      CircuitBreaker.call openBreaker 110 110 .success =
        (.rejected, openBreaker, false) ∧
      (admitPhase openBreaker 130 = some { openBreaker with state := .halfOpen } ∧
        (CircuitBreaker.call openBreaker 130 130 .success).2.2 = true) :=
  ⟨rfl, by norm_num [openBreaker],
    circuit_breaker_state_machine.1 openBreaker 110 110 100 .success rfl rfl
      (by norm_num [openBreaker]),
    circuit_breaker_state_machine.2.1 openBreaker 130 130 100 .success rfl rfl
      (by norm_num [openBreaker])⟩

/-- The action returned by `evaluate`, as a three-way decision tree. -/
theorem evaluate_action_eq (p : AutoScalingPolicy) (m : MetricsSnapshot) :
    (evaluate p m).action =
      (if (cpuBreach p m || latencyBreach p m || failureBreach p m || queueBreach p m) &&
          decide (m.current_replicas < p.max_replicas) then ScalingAction.scale_up
      else if decide (m.current_replicas ≤ p.min_replicas) then ScalingAction.no_action
      else if cpuLow p m && latencyLow p m && failureLow p m && queueLow p m then
        ScalingAction.scale_down
      else ScalingAction.no_action) := by
  cases h1 : cpuBreach p m <;> cases h2 : latencyBreach p m <;>
    cases h3 : failureBreach p m <;> cases h4 : queueBreach p m <;>
      cases hr : decide (m.current_replicas < p.max_replicas) <;>
        simp [evaluate, h1, h2, h3, h4, hr, apply_ite ScalingDecision.action]

theorem cpuBreach_iff (p : AutoScalingPolicy) (m : MetricsSnapshot) :
    cpuBreach p m = true ↔ ∃ c, m.cpu_usage_pct = some c ∧ p.cpu_up ≤ c := by
  cases hc : m.cpu_usage_pct <;> simp [cpuBreach, hc]

theorem latencyBreach_iff (p : AutoScalingPolicy) (m : MetricsSnapshot) :
    latencyBreach p m = true ↔
      ∃ l, m.request_latency_p99_ms = some l ∧ p.latency_up ≤ l := by
  cases hc : m.request_latency_p99_ms <;> simp [latencyBreach, hc]

theorem failureBreach_iff (p : AutoScalingPolicy) (m : MetricsSnapshot) :
    failureBreach p m = true ↔ ∃ f, m.failure_rate = some f ∧ p.failure_up ≤ f := by
  cases hc : m.failure_rate <;> simp [failureBreach, hc]

theorem queueBreach_iff (p : AutoScalingPolicy) (m : MetricsSnapshot) :
    queueBreach p m = true ↔ ∃ q, m.queue_depth = some q ∧ p.queue_up ≤ q := by
  cases hc : m.queue_depth <;> simp [queueBreach, hc]

theorem cpuLow_iff (p : AutoScalingPolicy) (m : MetricsSnapshot) :
    cpuLow p m = true ↔ ∀ c, m.cpu_usage_pct = some c → c ≤ p.cpu_down := by
  cases hc : m.cpu_usage_pct <;> simp [cpuLow, hc]

theorem latencyLow_iff (p : AutoScalingPolicy) (m : MetricsSnapshot) :
    latencyLow p m = true ↔
      ∀ l, m.request_latency_p99_ms = some l → l < p.latency_up * (1 / 2) := by
  cases hc : m.request_latency_p99_ms <;> simp [latencyLow, hc]

theorem failureLow_iff (p : AutoScalingPolicy) (m : MetricsSnapshot) :
    failureLow p m = true ↔
      ∀ f, m.failure_rate = some f → f < p.failure_up * (1 / 2) := by
  cases hc : m.failure_rate <;> simp [failureLow, hc]

theorem queueLow_iff (p : AutoScalingPolicy) (m : MetricsSnapshot) :
    queueLow p m = true ↔
      ∀ q, m.queue_depth = some q → (q : Rat) < (p.queue_up : Rat) * (1 / 2) := by
  cases hc : m.queue_depth <;> simp [queueLow, hc]

/-- Under sane thresholds an up-breach and the all-low condition cannot
hold at the same time. -/
theorem not_up_and_down (p : AutoScalingPolicy) (m : MetricsSnapshot)
    (hcpu : p.cpu_down < p.cpu_up) (hlat : 0 ≤ p.latency_up)
    (hfail : 0 ≤ p.failure_up) (hqueue : 0 ≤ p.queue_up) :
    ¬(specScaleUp p m ∧ specScaleDown p m) := by
  rintro ⟨⟨hbr, _⟩, _, hdc, hdl, hdf, hdq⟩
  rcases hbr with ⟨c, hc, hb⟩ | ⟨l, hl, hb⟩ | ⟨f, hf, hb⟩ | ⟨q, hq, hb⟩
  · have := hdc c hc
    linarith
  · have := hdl l hl
    linarith
  · have := hdf f hf
    linarith
  · have h1 := hdq q hq
    have h2 : (p.queue_up : Rat) ≤ (q : Rat) := by exact_mod_cast hb
    have h3 : (0 : Rat) ≤ (p.queue_up : Rat) := by exact_mod_cast hqueue
    linarith

/-- C9 (amended): with thresholds satisfying `cpu_down < cpu_up` and
nonnegative up-thresholds (the defaults qualify), `evaluate` returns
SCALE_UP exactly when some present signal meets its up threshold and
`current_replicas < max_replicas`; SCALE_DOWN exactly when
`current_replicas > min_replicas` and every present signal is below half
its up threshold with cpu *at most* `cpu_down`; and NO_ACTION otherwise. -/
theorem autoscaling_policy_characterization (p : AutoScalingPolicy)
    (m : MetricsSnapshot) (hcpu : p.cpu_down < p.cpu_up)
    (hlat : 0 ≤ p.latency_up) (hfail : 0 ≤ p.failure_up)
    (hqueue : 0 ≤ p.queue_up) :
    ((evaluate p m).action = .scale_up ↔ specScaleUp p m) ∧
      ((evaluate p m).action = .scale_down ↔ specScaleDown p m) ∧
      ((evaluate p m).action = .no_action ↔
        ¬specScaleUp p m ∧ ¬specScaleDown p m) := by
  have hA := evaluate_action_eq p m
  have hU : ((cpuBreach p m || latencyBreach p m || failureBreach p m ||
        queueBreach p m) && decide (m.current_replicas < p.max_replicas)) = true ↔
      specScaleUp p m := by
    unfold specScaleUp
    rw [Bool.and_eq_true, Bool.or_eq_true, Bool.or_eq_true, Bool.or_eq_true]
    rw [cpuBreach_iff, latencyBreach_iff, failureBreach_iff, queueBreach_iff]
    rw [decide_eq_true_eq]
    constructor
    · rintro ⟨(((h | h) | h) | h), h2⟩
      · exact ⟨Or.inl h, h2⟩
      · exact ⟨Or.inr (Or.inl h), h2⟩
      · exact ⟨Or.inr (Or.inr (Or.inl h)), h2⟩
      · exact ⟨Or.inr (Or.inr (Or.inr h)), h2⟩
    · rintro ⟨(h | h | h | h), h2⟩
      · exact ⟨Or.inl (Or.inl (Or.inl h)), h2⟩
      · exact ⟨Or.inl (Or.inl (Or.inr h)), h2⟩
      · exact ⟨Or.inl (Or.inr h), h2⟩
      · exact ⟨Or.inr h, h2⟩
  have hLiff : (cpuLow p m && latencyLow p m && failureLow p m && queueLow p m) = true ↔
      ((∀ c, m.cpu_usage_pct = some c → c ≤ p.cpu_down) ∧
        (∀ l, m.request_latency_p99_ms = some l → l < p.latency_up * (1 / 2)) ∧
        (∀ f, m.failure_rate = some f → f < p.failure_up * (1 / 2)) ∧
        (∀ q, m.queue_depth = some q → (q : Rat) < (p.queue_up : Rat) * (1 / 2))) := by
    rw [Bool.and_eq_true, Bool.and_eq_true, Bool.and_eq_true]
    rw [cpuLow_iff, latencyLow_iff, failureLow_iff, queueLow_iff]
    constructor
    · rintro ⟨⟨⟨hc, hl⟩, hf⟩, hq⟩
      exact ⟨hc, hl, hf, hq⟩
    · rintro ⟨hc, hl, hf, hq⟩
      exact ⟨⟨⟨hc, hl⟩, hf⟩, hq⟩
  cases hb : ((cpuBreach p m || latencyBreach p m || failureBreach p m ||
      queueBreach p m) && decide (m.current_replicas < p.max_replicas)) with
  | true =>
      have haction : (evaluate p m).action = .scale_up := by rw [hA, hb]; rfl
      have hUp : specScaleUp p m := hU.mp hb
      have hnD : ¬specScaleDown p m := fun hD =>
        not_up_and_down p m hcpu hlat hfail hqueue ⟨hUp, hD⟩
      refine ⟨⟨fun _ => hUp, fun _ => haction⟩, ?_, ?_⟩
      · rw [haction]
        exact ⟨fun hcontra => absurd hcontra (by simp), fun hD => absurd hD hnD⟩
      · rw [haction]
        exact ⟨fun hcontra => absurd hcontra (by simp),
          fun hcontra => absurd hUp hcontra.1⟩
  | false =>
      have hnU : ¬specScaleUp p m := fun hUp => by
        have hh := hU.mpr hUp
        rw [hb] at hh
        exact absurd hh Bool.false_ne_true
      cases hm : decide (m.current_replicas ≤ p.min_replicas) with
      | true =>
          have haction : (evaluate p m).action = .no_action := by
            rw [hA, hb, hm]
            rfl
          have hminle : m.current_replicas ≤ p.min_replicas := of_decide_eq_true hm
          have hnD : ¬specScaleDown p m := fun hD => absurd hD.1 (not_lt.mpr hminle)
          refine ⟨?_, ?_, ?_⟩
          · exact ⟨fun hcontra => by simp [haction] at hcontra,
              fun hUp => absurd hUp hnU⟩
          · exact ⟨fun hcontra => by simp [haction] at hcontra,
              fun hD => absurd hD hnD⟩
          · exact ⟨fun _ => ⟨hnU, hnD⟩, fun _ => haction⟩
      | false =>
          have hgt : p.min_replicas < m.current_replicas :=
            not_le.mp (of_decide_eq_false hm)
          cases hl2 : (cpuLow p m && latencyLow p m && failureLow p m && queueLow p m) with
          | true =>
              have haction : (evaluate p m).action = .scale_down := by
                rw [hA, hb, hm, hl2]
                rfl
              have hlows := hLiff.mp hl2
              have hD : specScaleDown p m :=
                ⟨hgt, hlows.1, hlows.2.1, hlows.2.2.1, hlows.2.2.2⟩
              refine ⟨?_, ?_, ?_⟩
              · exact ⟨fun hcontra => by simp [haction] at hcontra,
                  fun hUp => absurd hUp hnU⟩
              · exact ⟨fun _ => hD, fun _ => haction⟩
              · exact ⟨fun hcontra => by simp [haction] at hcontra,
                  fun hand => absurd hD hand.2⟩
          | false =>
              have haction : (evaluate p m).action = .no_action := by
                rw [hA, hb, hm, hl2]
                rfl
              have hnD : ¬specScaleDown p m := fun hD => by
                have hh := hLiff.mpr ⟨hD.2.1, hD.2.2.1, hD.2.2.2.1, hD.2.2.2.2⟩
                rw [hl2] at hh
                exact absurd hh Bool.false_ne_true
              refine ⟨?_, ?_, ?_⟩
              · exact ⟨fun hcontra => by simp [haction] at hcontra,
                  fun hUp => absurd hUp hnU⟩
              · exact ⟨fun hcontra => by simp [haction] at hcontra,
                  fun hD => absurd hD hnD⟩
              · exact ⟨fun _ => ⟨hnU, hnD⟩, fun _ => haction⟩

/-- C9 counterexample: with the default thresholds, cpu exactly at
`cpu_down` (30) and two replicas, the code scales down although the
claim's strict "cpu below cpu_down" condition is violated, so the claim's
exactly-when characterization predicts NO_ACTION. -/
theorem autoscaling_cpu_boundary_counterexample :
    (evaluate {} { cpu_usage_pct := some 30, current_replicas := 2 }).action =
        .scale_down ∧
      ¬specScaleDownStrict {} { cpu_usage_pct := some 30, current_replicas := 2 } ∧
      ¬specScaleUp {} { cpu_usage_pct := some 30, current_replicas := 2 } := by
  refine ⟨by decide, ?_, ?_⟩
  · intro h
    have := h.2.1 30 rfl
    norm_num [AutoScalingPolicy.cpu_down] at this
  · rintro ⟨⟨c, hc, hb⟩ | ⟨l, hl, hb⟩ | ⟨f, hf, hb⟩ | ⟨q, hq, hb⟩, _⟩
    · rw [show (({ cpu_usage_pct := some 30, current_replicas := 2 } :
          MetricsSnapshot)).cpu_usage_pct = some 30 from rfl] at hc
      rw [Option.some_inj.mp hc.symm] at hb
      norm_num [AutoScalingPolicy.cpu_up] at hb
    · exact Option.noConfusion hl
    · exact Option.noConfusion hf
    · exact Option.noConfusion hq

/-- C9 witness: the amended characterization applied at the default
thresholds and a concrete high-cpu snapshot. -/
theorem autoscaling_policy_characterization_witness :
    (({} : AutoScalingPolicy).cpu_down < ({} : AutoScalingPolicy).cpu_up ∧
      0 ≤ ({} : AutoScalingPolicy).latency_up ∧
      0 ≤ ({} : AutoScalingPolicy).failure_up ∧
      0 ≤ ({} : AutoScalingPolicy).queue_up) ∧
      (((evaluate {} { cpu_usage_pct := some 80, current_replicas := 2 }).action =
          .scale_up ↔ specScaleUp {} { cpu_usage_pct := some 80, current_replicas := 2 }) ∧
        ((evaluate {} { cpu_usage_pct := some 80, current_replicas := 2 }).action =
          .scale_down ↔ specScaleDown {} { cpu_usage_pct := some 80, current_replicas := 2 }) ∧
        ((evaluate {} { cpu_usage_pct := some 80, current_replicas := 2 }).action =
          .no_action ↔
          ¬specScaleUp {} { cpu_usage_pct := some 80, current_replicas := 2 } ∧
            ¬specScaleDown {} { cpu_usage_pct := some 80, current_replicas := 2 })) :=
  ⟨⟨by norm_num, by norm_num, by norm_num, by norm_num⟩,
    autoscaling_policy_characterization {} { cpu_usage_pct := some 80, current_replicas := 2 }
      (by norm_num) (by norm_num) (by norm_num) (by norm_num)⟩

/-- A successfully constructed service holds the key derived from the
stripped secret. -/
theorem mkEncryptionService_ok (k : String) (s : FernetKey)
    (h : mkEncryptionService (some k) none = .ok s) : s = deriveKey k := by
  by_cases hk : k = ""
  · rw [hk] at h
    simp [mkEncryptionService] at h
  · by_cases ht : pyStrip k = ""
    · simp [mkEncryptionService, hk, ht] at h
    · simp [mkEncryptionService, hk, ht] at h
      exact h.symm

/-- C10 (amended): under the symbolic Fernet model (ideal KDF injective in
the stripped secret; authenticated decryption succeeds exactly under the
building key), decrypt(encrypt(x, K), K) = x for every key a service can
be built from; and decryption under a second key fails with
`EncryptionError` whenever the stripped secrets differ. -/
theorem encryption_roundtrip_and_key_separation :
    (∀ k1 s1 x, mkEncryptionService (some k1) none = .ok s1 →
      decrypt s1 (encrypt s1 x) = .ok x) ∧
    (∀ k1 k2 s1 s2 x, mkEncryptionService (some k1) none = .ok s1 →
      mkEncryptionService (some k2) none = .ok s2 →
      pyStrip k1 ≠ pyStrip k2 →
      decrypt s2 (encrypt s1 x) = .error .invalidToken) := by
  constructor
  · intro k1 s1 x _
    simp [decrypt, encrypt]
  · intro k1 k2 s1 s2 x h1 h2 hne
    rw [mkEncryptionService_ok k1 s1 h1, mkEncryptionService_ok k2 s2 h2]
    have hkey : deriveKey k1 ≠ deriveKey k2 := by
      intro hh
      exact hne (congrArg FernetKey.derived hh)
    simp [decrypt, encrypt, hkey]

/-- C10 witness: the amended theorem at two concrete keys with distinct
stripped secrets. -/
theorem encryption_roundtrip_and_key_separation_witness :
    mkEncryptionService (some "alpha") none = .ok (deriveKey "alpha") ∧
      mkEncryptionService (some "beta") none = .ok (deriveKey "beta") ∧
      pyStrip "alpha" ≠ pyStrip "beta" ∧
      decrypt (deriveKey "alpha") (encrypt (deriveKey "alpha") "msg") = .ok "msg" ∧
      decrypt (deriveKey "beta") (encrypt (deriveKey "alpha") "msg") =
        .error .invalidToken :=
  ⟨rfl, rfl, by decide,
    encryption_roundtrip_and_key_separation.1 "alpha" (deriveKey "alpha") "msg" rfl,
    encryption_roundtrip_and_key_separation.2 "alpha" "beta" (deriveKey "alpha")
      (deriveKey "beta") "msg" rfl rfl (by decide)⟩

/-- C10 counterexample: two *distinct* raw keys whose stripped forms agree
("secret" vs "secret ") decrypt each other's ciphertexts successfully, so
"decryption with any other key raises" fails as stated. -/
theorem encryption_distinct_keys_decrypt_counterexample :
    ("secret" : String) ≠ "secret " ∧
      mkEncryptionService (some "secret") none = .ok (deriveKey "secret") ∧
      mkEncryptionService (some "secret ") none = .ok (deriveKey "secret ") ∧
      decrypt (deriveKey "secret ") (encrypt (deriveKey "secret") "msg") =
        .ok "msg" := by
  refine ⟨by decide, rfl, rfl, rfl⟩

/-- C8 witness: the publish contract applied at concrete inputs. -/
theorem create_event_publish_contract_witness :
    kvGet ({} : World).kv (idempotencyCacheKey "t1" "k1") = none ∧
      ((createEvent sampleEnvOk {} sampleEvent "t1" "k1" "c1").2.published =
          ({} : World).published ++
            [{ exchange := "risk_events", routing_key := routingKey sampleEvent,
               event_id := sampleEvent.event_id, tenant_id := sampleEvent.tenant_id,
               correlation_id := "c1", event_type := eventTypeName sampleEvent,
               status := "received", idempotency_key := "k1" }] ∧
        ((∃ rs cat, sampleEvent.variant = .risk rs cat) →
          routingKey sampleEvent = "risk.created") ∧
        ((∃ rr ct, sampleEvent.variant = .compliance rr ct) →
          routingKey sampleEvent = "compliance.created") ∧
        (routingKey sampleEvent = "risk.created" ∨
          routingKey sampleEvent = "compliance.created") ∧
        (∀ tid eid ca req, routingKey (requestToRiskEvent tid eid ca req) = "risk.created") ∧
        (∀ tid eid ca req,
          routingKey (requestToComplianceEvent tid eid ca req) = "compliance.created")) :=
  ⟨rfl,
    create_event_publish_contract sampleEnvOk {} sampleEvent "t1" "k1" "c1" rfl rfl
      (Or.inl ⟨some 10, none, rfl⟩)⟩

end AiRiskEngine
